import Mathlib

/-!
Verification of the CM2US repository (google-scholar-mcp / google-scholar-api).

Strings are modelled as `List Char` (named `Str`).  Python string operations
used by the code (`str.split`, `str.rsplit`, `str.strip`, `in`, slicing and
the two `re.search` patterns of the code) are embedded as structural
recursive functions so that every definition evaluates by kernel reduction.
-/

abbrev Str := List Char

/-- Convenience: the character list of a Lean string literal. -/
def lit (s : String) : Str := s.data

/-- Python whitespace (`str.strip` default set and the regex class `\s`,
restricted to the ASCII range; the summaries and model outputs the
repository handles are ASCII). -/
def isPySpace (c : Char) : Bool :=
  c == ' ' || c == '\t' || c == '\n' || c == '\r' ||
  c == Char.ofNat 11 || c == Char.ofNat 12

/-- Python `str.strip()`: drop leading and trailing whitespace. -/
def stripChars (s : Str) : Str :=
  ((s.dropWhile isPySpace).reverse.dropWhile isPySpace).reverse

/-- Helper used by `splitDash`: prepend a character to the first field of a
split result. -/
def consHead (c : Char) : List Str → List Str
  | [] => [[c]]
  | h :: t => (c :: h) :: t

/-- Python `summary.split(" - ")` (server.py line 135 / 147): split on every
left-to-right non-overlapping occurrence of the three-character separator
`" - "`. -/
def splitDash : Str → List Str
  | c1 :: c2 :: c3 :: rest =>
    if c1 == ' ' && c2 == '-' && c3 == ' ' then
      [] :: splitDash rest
    else
      consHead c1 (splitDash (c2 :: c3 :: rest))
  | [c1, c2] => [[c1, c2]]
  | [c1] => [[c1]]
  | [] => [[]]

/-- Python `" - " in summary` (server.py line 147). -/
def containsDash : Str → Bool
  | c1 :: c2 :: c3 :: rest =>
    (c1 == ' ' && c2 == '-' && c3 == ' ') || containsDash (c2 :: c3 :: rest)
  | _ => false

/-- Word character for the regex `\b` boundary (Python `\w`, ASCII range). -/
def isWordChar (c : Char) : Bool := c.isAlphanum || c == '_'

/-- First two characters of the regex alternative `(19|20)`. -/
def isYearStart (c1 c2 : Char) : Bool :=
  (c1 == '1' && c2 == '9') || (c1 == '2' && c2 == '0')

/-- The `\b` boundary after the four digits: end of string or a non-word
character. -/
def boundaryAfter : Str → Bool
  | [] => true
  | c :: _ => !isWordChar c

/-- Scanner compiled from `re.search(r'\b(19|20)\d{2}\b', venue_year)`
(server.py line 139).  `prev` records whether the character just before the
current position is a word character (false at the start of the string), so
the leading `\b` holds exactly when `prev` is false. -/
def findYearAux (prev : Bool) : Str → Option Str
  | c1 :: c2 :: c3 :: c4 :: rest =>
    if !prev && isYearStart c1 c2 && c3.isDigit && c4.isDigit && boundaryAfter rest then
      some [c1, c2, c3, c4]
    else
      findYearAux (isWordChar c1) (c2 :: c3 :: c4 :: rest)
  | _ => none

/-- `re.search(r'\b(19|20)\d{2}\b', s)` from the start of the string. -/
def findYear (s : Str) : Option Str := findYearAux false s

/-- Python `s.rsplit(",", 1)[0]` when a comma is present: the longest prefix
before the last comma (`none` when the string has no comma). -/
def beforeLastComma : Str → Option Str
  | [] => none
  | c :: rest =>
    match beforeLastComma rest with
    | some t => some (c :: t)
    | none => if c == ',' then some [] else none

/-- The parsed (authors, venue, year) triple produced from a
`publication_info.summary` string. -/
structure ParsedSummary where
  authors : Str
  venue : Str
  year : Str
deriving DecidableEq, Repr

/-- Venue extraction from the remainder (server.py line 143):
`venue_year.rsplit(",", 1)[0].strip() if "," in venue_year else venue_year.strip()`. -/
def venueFrom (vy : Str) : Str :=
  if vy.contains ',' then stripChars ((beforeLastComma vy).getD vy)
  else stripChars vy

/-- Year extraction from the remainder (server.py lines 139-141). -/
def yearFrom (vy : Str) : Str :=
  match findYear vy with
  | some y => y
  | none => lit "Unknown"

/-- The summary parser of `search_scholar` (server.py lines 131-147):
venue and year come from the LAST field of `summary.split(" - ")` when the
split has more than one field (guarded by `if summary:`), and authors is
`summary.split(" - ")[0] if " - " in summary else summary`. -/
def parseSummary (summary : Str) : ParsedSummary :=
  let vy : Str × Str :=
    if summary.isEmpty then (lit "Unknown", lit "Unknown")
    else
      let parts := splitDash summary
      if parts.length > 1 then
        let venue_year := parts.getLastD []
        (venueFrom venue_year, yearFrom venue_year)
      else (lit "Unknown", lit "Unknown")
  let authors := if containsDash summary then (splitDash summary).headD [] else summary
  ⟨authors, vy.1, vy.2⟩

theorem containsDash_cons3 (c1 c2 c3 : Char) (r : Str) :
    containsDash (c1 :: c2 :: c3 :: r) =
      ((c1 == ' ' && c2 == '-' && c3 == ' ') || containsDash (c2 :: c3 :: r)) := rfl

theorem splitDash_cons3 (c1 c2 c3 : Char) (r : Str) :
    splitDash (c1 :: c2 :: c3 :: r) =
      if c1 == ' ' && c2 == '-' && c3 == ' ' then [] :: splitDash r
      else consHead c1 (splitDash (c2 :: c3 :: r)) := rfl

theorem containsDash_tail (c : Char) (l : Str) (h : containsDash (c :: l) = false) :
    containsDash l = false := by
  match l with
  | [] => rfl
  | [_] => rfl
  | c2 :: c3 :: l3 =>
    rw [containsDash_cons3] at h
    exact (Bool.or_eq_false_iff.mp h).2

theorem containsDash_cons_of (c : Char) (l : Str) (h : containsDash l = true) :
    containsDash (c :: l) = true := by
  match l with
  | [] => exact absurd h (by simp [containsDash])
  | [_] => exact absurd h (by simp [containsDash])
  | c2 :: c3 :: r => rw [containsDash_cons3, h, Bool.or_true]

/-- A string of the form `A ++ " - " ++ R` always contains the separator. -/
theorem containsDash_append_sep (A R : Str) :
    containsDash (A ++ (' ' :: '-' :: ' ' :: R)) = true := by
  induction A with
  | nil => rw [List.nil_append, containsDash_cons3]; simp
  | cons a A ih => rw [List.cons_append]; exact containsDash_cons_of a _ ih

/-- A string without the separator is returned whole by `split(" - ")`. -/
theorem splitDash_no_dash : ∀ (s : Str), containsDash s = false → splitDash s = [s]
  | [], _ => rfl
  | [_], _ => rfl
  | [_, _], _ => rfl
  | c1 :: c2 :: c3 :: r, h => by
    rw [containsDash_cons3] at h
    obtain ⟨h1, h2⟩ := Bool.or_eq_false_iff.mp h
    rw [splitDash_cons3, h1, if_neg (by simp), splitDash_no_dash (c2 :: c3 :: r) h2]
    rfl

/-- When no separator occurrence starts inside `A` (also not one ending at the
first character of the separator, which is what `containsDash (A ++ [' '])`
excludes), the split of `A ++ " - " ++ R` peels off `A` as its first field. -/
theorem splitDash_append_sep : ∀ (A R : Str), containsDash (A ++ [' ']) = false →
    splitDash (A ++ (' ' :: '-' :: ' ' :: R)) = A :: splitDash R
  | [], R, _ => by
    rw [List.nil_append, splitDash_cons3, if_pos (by simp)]
  | [a], R, h => by
    show splitDash (a :: ' ' :: '-' :: ' ' :: R) = [a] :: splitDash R
    rw [splitDash_cons3, if_neg (by simp),
      show (' ' :: '-' :: ' ' :: R) = ([] ++ (' ' :: '-' :: ' ' :: R)) from rfl,
      splitDash_append_sep [] R rfl]
    rfl
  | a1 :: a2 :: A2, R, h => by
    match A2 with
    | [] =>
      have hc : (a1 == ' ' && a2 == '-' && ' ' == ' ') = false := by
        have := (Bool.or_eq_false_iff.mp (show containsDash [a1, a2, ' '] = false from h)).1
        simpa using this
      show splitDash (a1 :: a2 :: ' ' :: '-' :: ' ' :: R) = [a1, a2] :: splitDash R
      rw [splitDash_cons3, hc, if_neg (by simp),
        show (a2 :: ' ' :: '-' :: ' ' :: R) = ([a2] ++ (' ' :: '-' :: ' ' :: R)) from rfl,
        splitDash_append_sep [a2] R rfl]
      rfl
    | a3 :: A3 =>
      have h' : containsDash ((a1 :: a2 :: a3 :: A3) ++ [' ']) = false := h
      rw [show ((a1 :: a2 :: a3 :: A3) ++ [' ']) = (a1 :: a2 :: a3 :: (A3 ++ [' '])) from rfl,
        containsDash_cons3] at h'
      obtain ⟨hc, htl⟩ := Bool.or_eq_false_iff.mp h'
      show splitDash (a1 :: a2 :: a3 :: (A3 ++ (' ' :: '-' :: ' ' :: R)))
          = (a1 :: a2 :: a3 :: A3) :: splitDash R
      rw [splitDash_cons3, hc, if_neg (by simp),
        show (a2 :: a3 :: (A3 ++ (' ' :: '-' :: ' ' :: R)))
            = ((a2 :: a3 :: A3) ++ (' ' :: '-' :: ' ' :: R)) from rfl,
        splitDash_append_sep (a2 :: a3 :: A3) R htl]
      rfl

/-- Claim-side only (refinement comparison for C1): the prefix of the string
before the FIRST occurrence of `" - "`, following the claim's words. -/
def beforeFirstDash : Str → Str
  | c1 :: c2 :: c3 :: rest =>
    if c1 == ' ' && c2 == '-' && c3 == ' ' then []
    else c1 :: beforeFirstDash (c2 :: c3 :: rest)
  | s => s

/-- Claim-side only (refinement comparison for C1): the remainder after the
FIRST occurrence of `" - "`, following the claim's words. -/
def afterFirstDash : Str → Str
  | c1 :: c2 :: c3 :: rest =>
    if c1 == ' ' && c2 == '-' && c3 == ' ' then rest
    else afterFirstDash (c2 :: c3 :: rest)
  | _ => []

/-- Claim-side only (refinement comparison for C1): the first 4-digit
substring beginning with "19" or "20", with NO word-boundary requirement,
following the claim's words literally. -/
def plainYearSearch : Str → Option Str
  | c1 :: c2 :: c3 :: c4 :: rest =>
    if isYearStart c1 c2 && c3.isDigit && c4.isDigit then some [c1, c2, c3, c4]
    else plainYearSearch (c2 :: c3 :: c4 :: rest)
  | _ => none

/-- The summary parser exactly as claim C1 states it: split once on the
first occurrence of `" - "`, `authors` the text before it, `year` the first
4-digit substring beginning with 19/20 in the remainder, `venue` the
remainder truncated at its last comma (stripped) when a comma is present,
else the remainder trimmed. -/
def claimParseSummary (s : Str) : ParsedSummary :=
  if containsDash s then
    let rest := afterFirstDash s
    ⟨beforeFirstDash s,
     venueFrom rest,
     match plainYearSearch rest with
     | some y => y
     | none => lit "Unknown"⟩
  else ⟨s, lit "Unknown", lit "Unknown"⟩

/-- Claim C1 is false on the code: on `"A - B - C, x2023y"` the code takes
venue/year from the text after the LAST `" - "` (yielding venue `"C"`) and
its year regex carries `\b` word boundaries (yielding no year), while the
claim's algorithm takes the remainder after the FIRST `" - "` (venue
`"B - C"`) and finds the plain substring `"2023"`. -/
theorem c1_summary_parser_counterexample :
    parseSummary (lit "A - B - C, x2023y") = ⟨lit "A", lit "C", lit "Unknown"⟩ ∧
    claimParseSummary (lit "A - B - C, x2023y") = ⟨lit "A", lit "B - C", lit "2023"⟩ ∧
    parseSummary (lit "A - B - C, x2023y") ≠ claimParseSummary (lit "A - B - C, x2023y") := by
  refine ⟨by decide, by decide, by decide⟩

/-- Claim C2: on the spec's two reference shapes the parser yields exactly
the stated fields; the no-separator case holds for EVERY summary string
without `" - "`. -/
theorem c2_reference_shapes :
    parseSummary (lit "A, B - Conf X, 2023") = ⟨lit "A, B", lit "Conf X", lit "2023"⟩ ∧
    ∀ s : Str, containsDash s = false →
      parseSummary s = ⟨s, lit "Unknown", lit "Unknown"⟩ := by
  refine ⟨by decide, ?_⟩
  intro s h
  unfold parseSummary
  rw [h]
  cases s with
  | nil => rfl
  | cons c t =>
    rw [splitDash_no_dash (c :: t) h]
    simp

/-- Witness for the universally quantified part of C2 at a concrete
separator-free summary. -/
theorem c2_reference_shapes_witness :
    parseSummary (lit "Doe J, Roe R") =
      ⟨lit "Doe J, Roe R", lit "Unknown", lit "Unknown"⟩ :=
  c2_reference_shapes.2 (lit "Doe J, Roe R") (by decide)

def yearMatchAt (prev : Bool) (s : Str) (i : Nat) : Bool :=
  decide (i + 4 <= s.length) &&
  (if i == 0 then !prev else !isWordChar (s.getD (i - 1) ' ')) &&
  isYearStart (s.getD i ' ') (s.getD (i + 1) ' ') &&
  (s.getD (i + 2) ' ').isDigit && (s.getD (i + 3) ' ').isDigit &&
  (decide (i + 4 = s.length) || !isWordChar (s.getD (i + 4) ' '))

theorem yearMatchAt_len (prev : Bool) (s : Str) (i : Nat) (h : ¬ (i + 4 <= s.length)) :
    yearMatchAt prev s i = false := by
  unfold yearMatchAt
  rw [decide_eq_false h]
  simp

theorem findYearAux_cons4 (prev : Bool) (c1 c2 c3 c4 : Char) (r : Str) :
    findYearAux prev (c1 :: c2 :: c3 :: c4 :: r) =
      if !prev && isYearStart c1 c2 && c3.isDigit && c4.isDigit && boundaryAfter r then
        some [c1, c2, c3, c4]
      else findYearAux (isWordChar c1) (c2 :: c3 :: c4 :: r) := rfl

theorem yearMatchAt_zero (prev : Bool) (c1 c2 c3 c4 : Char) (r : Str) :
    yearMatchAt prev (c1 :: c2 :: c3 :: c4 :: r) 0 =
      (!prev && isYearStart c1 c2 && c3.isDigit && c4.isDigit && boundaryAfter r) := by
  unfold yearMatchAt
  cases r with
  | nil => simp [boundaryAfter]
  | cons rh rt =>
    have hne : ¬ ((0 : Nat) + 4 = (c1 :: c2 :: c3 :: c4 :: rh :: rt).length) := by
      simp only [List.length_cons]; omega
    rw [decide_eq_false hne]
    simp [boundaryAfter, List.getD]

theorem yearMatchAt_succ (prev : Bool) (c1 : Char) (s' : Str) (i : Nat) :
    yearMatchAt prev (c1 :: s') (i + 1) = yearMatchAt (isWordChar c1) s' i := by
  unfold yearMatchAt
  have h1 : decide (i + 1 + 4 <= (c1 :: s').length) = decide (i + 4 <= s'.length) :=
    decide_eq_decide.mpr (by simp only [List.length_cons]; omega)
  have h2 : (if i + 1 == 0 then !prev else !isWordChar ((c1 :: s').getD (i + 1 - 1) ' ')) =
      (if i == 0 then !(isWordChar c1) else !isWordChar (s'.getD (i - 1) ' ')) := by
    cases i with
    | zero => simp
    | succ j => simp [List.getD_cons_succ]
  have h3 : (c1 :: s').getD (i + 1) ' ' = s'.getD i ' ' := List.getD_cons_succ
  have h4 : (c1 :: s').getD (i + 1 + 1) ' ' = s'.getD (i + 1) ' ' := by
    rw [show i + 1 + 1 = (i + 1) + 1 from rfl, List.getD_cons_succ]
  have h5 : (c1 :: s').getD (i + 1 + 2) ' ' = s'.getD (i + 2) ' ' := by
    rw [show i + 1 + 2 = (i + 2) + 1 from rfl, List.getD_cons_succ]
  have h6 : (c1 :: s').getD (i + 1 + 3) ' ' = s'.getD (i + 3) ' ' := by
    rw [show i + 1 + 3 = (i + 3) + 1 from rfl, List.getD_cons_succ]
  have h7 : (c1 :: s').getD (i + 1 + 4) ' ' = s'.getD (i + 4) ' ' := by
    rw [show i + 1 + 4 = (i + 4) + 1 from rfl, List.getD_cons_succ]
  have h8 : decide (i + 1 + 4 = (c1 :: s').length) = decide (i + 4 = s'.length) :=
    decide_eq_decide.mpr (by simp only [List.length_cons]; omega)
  rw [h1, h2, h3, h4, h5, h6, h7, h8]

theorem findYearAux_small (prev : Bool) (s : Str) (h : s.length < 4) :
    (List.range s.length).find? (yearMatchAt prev s) = none := by
  apply List.find?_eq_none.mpr
  intro i hi
  rw [List.mem_range] at hi
  rw [yearMatchAt_len prev s i (by omega)]
  simp

theorem findYearAux_spec : ∀ (s : Str) (prev : Bool),
    findYearAux prev s =
      ((List.range s.length).find? (yearMatchAt prev s)).map (fun i => (s.drop i).take 4)
  | [], prev => by
    rw [findYearAux_small prev [] (by simp)]; rfl
  | [c], prev => by
    rw [findYearAux_small prev [c] (by simp)]; rfl
  | [c, c2], prev => by
    rw [findYearAux_small prev [c, c2] (by simp)]; rfl
  | [c, c2, c3], prev => by
    rw [findYearAux_small prev [c, c2, c3] (by simp)]; rfl
  | c1 :: c2 :: c3 :: c4 :: rest, prev => by
    have hlen : (c1 :: c2 :: c3 :: c4 :: rest).length = (c2 :: c3 :: c4 :: rest).length + 1 := rfl
    rw [findYearAux_cons4, hlen, List.range_succ_eq_map]
    cases hC : (!prev && isYearStart c1 c2 && c3.isDigit && c4.isDigit && boundaryAfter rest) with
    | true =>
      rw [if_pos rfl,
        List.find?_cons_of_pos _ (by rw [yearMatchAt_zero]; exact hC)]
      simp [List.take]
    | false =>
      rw [if_neg Bool.false_ne_true,
        List.find?_cons_of_neg _ (by rw [yearMatchAt_zero, hC]; exact Bool.false_ne_true),
        findYearAux_spec (c2 :: c3 :: c4 :: rest) (isWordChar c1),
        List.find?_map, Option.map_map]
      have hp : (yearMatchAt prev (c1 :: c2 :: c3 :: c4 :: rest)) ∘ Nat.succ =
          yearMatchAt (isWordChar c1) (c2 :: c3 :: c4 :: rest) := by
        funext i
        show yearMatchAt prev (c1 :: c2 :: c3 :: c4 :: rest) (i + 1) = _
        rw [yearMatchAt_succ]
      rw [hp]
      congr 1

theorem beforeLastComma_none : ∀ (t : Str), t.contains ',' = false →
    beforeLastComma t = none
  | [], _ => rfl
  | c :: rest, h => by
    have h' : ¬ (',' = c) ∧ ',' ∉ rest := by simpa [List.contains_cons] using h
    have hc : (c == ',') = false := by
      simp only [beq_eq_false_iff_ne, ne_eq]
      exact fun he => h'.1 he.symm
    have ht : rest.contains ',' = false := by
      by_contra hne
      simp only [Bool.not_eq_false] at hne
      exact h'.2 (List.mem_of_elem_eq_true hne)
    show (match beforeLastComma rest with
      | some t => some (c :: t)
      | none => if c == ',' then some [] else none) = none
    rw [beforeLastComma_none rest ht, hc]
    rfl

theorem beforeLastComma_append : ∀ (p t : Str), t.contains ',' = false →
    beforeLastComma (p ++ ',' :: t) = some p
  | [], t, h => by
    show (match beforeLastComma t with
      | some u => some (',' :: u)
      | none => if ',' == ',' then some [] else none) = some []
    rw [beforeLastComma_none t h]
    rfl
  | c :: p', t, h => by
    show (match beforeLastComma (p' ++ ',' :: t) with
      | some u => some (c :: u)
      | none => if c == ',' then some [] else none) = some (c :: p')
    rw [beforeLastComma_append p' t h]

/-- Claim C1, amended: the code splits on EVERY occurrence of `" - "`;
`authors` is the field before the first occurrence but the remainder used
for venue/year is the LAST field of that split (not everything after the
first occurrence); `year` is the first match of the word-boundary-delimited
regex `\b(19|20)\d{2}\b` in that remainder (not a plain substring search);
and `venue` truncates the remainder at its LAST comma and strips it, else
strips the whole remainder.  Conjunct 1 gives the parser's value on any
separated summary `A ++ " - " ++ R` (with no occurrence inside `A ++ " "`
or `R`, so `A` is the first and `R` the last field); conjunct 2
characterises the year scanner by the least index satisfying the boundary
conditions; conjuncts 3 and 4 characterise the venue rule by the
last-comma decomposition. -/
theorem c1_summary_parser_amended :
    (∀ A R : Str, containsDash (A ++ [' ']) = false → containsDash R = false →
      parseSummary (A ++ (' ' :: '-' :: ' ' :: R)) = ⟨A, venueFrom R, yearFrom R⟩)
    ∧ (∀ vy : Str, yearFrom vy =
        (match (List.range vy.length).find? (yearMatchAt false vy) with
         | some i => (vy.drop i).take 4
         | none => lit "Unknown"))
    ∧ (∀ p t : Str, t.contains ',' = false →
        venueFrom (p ++ ',' :: t) = stripChars p)
    ∧ (∀ vy : Str, vy.contains ',' = false → venueFrom vy = stripChars vy) := by
  refine ⟨?_, ?_, ?_, ?_⟩
  · intro A R hA hR
    have hne : (A ++ (' ' :: '-' :: ' ' :: R)).isEmpty = false := by cases A <;> rfl
    unfold parseSummary
    rw [hne, containsDash_append_sep A R, splitDash_append_sep A R hA,
      splitDash_no_dash R hR]
    simp [List.getLastD]
  · intro vy
    unfold yearFrom findYear
    rw [findYearAux_spec vy false]
    cases hf : (List.range vy.length).find? (yearMatchAt false vy) with
    | none => rfl
    | some i => rfl
  · intro p t ht
    have hc : (p ++ ',' :: t).contains ',' = true := by
      simp [List.contains_cons]
    unfold venueFrom
    rw [hc, if_pos rfl, beforeLastComma_append p t ht]
    rfl
  · intro vy h
    unfold venueFrom
    rw [h]
    rfl

/-- Witness for the amended C1 at a concrete separated summary, applying
each quantified conjunct. -/
theorem c1_summary_parser_amended_witness :
    parseSummary (lit "Smith J - Journal of Tests, 1999") =
      ⟨lit "Smith J", lit "Journal of Tests", lit "1999"⟩ ∧
    yearFrom (lit "x2020 1999!") = lit "1999" ∧
    venueFrom (lit "Conf A, Conf B, 2001") = lit "Conf A, Conf B" := by
  have e : lit "Smith J - Journal of Tests, 1999" =
      lit "Smith J" ++ (' ' :: '-' :: ' ' :: lit "Journal of Tests, 1999") := by decide
  have h1 := c1_summary_parser_amended.1 (lit "Smith J") (lit "Journal of Tests, 1999")
    (by decide) (by decide)
  have h2 := c1_summary_parser_amended.2.1 (lit "x2020 1999!")
  have h3 := c1_summary_parser_amended.2.2.1 (lit "Conf A, Conf B") (lit " 2001")
    (by decide)
  refine ⟨?_, ?_, ?_⟩
  · rw [e, h1]; decide
  · rw [h2]; decide
  · have e3 : lit "Conf A, Conf B, 2001" = lit "Conf A, Conf B" ++ ',' :: lit " 2001" := by
      decide
    rw [e3, h3]; decide

/-- JSON-like values: raw backend replies of the SerpAPI gateway and the
values extracted from model output by the free-text dispatch flow.  Numbers
are integers (the payloads the code manipulates carry counts and years;
floats do not occur on any path a claim depends on). -/
inductive Json where
  | null
  | bool (b : Bool)
  | num (n : Int)
  | str (s : Str)
  | arr (xs : List Json)
  | obj (kvs : List (Str × Json))

/-- Lookup in a JSON object, first binding wins (objects built by the
embedding keep keys unique). -/
def lookupKey : List (Str × Json) → Str → Option Json
  | [], _ => none
  | (k', v) :: rest, k => if k' = k then some v else lookupKey rest k

/-- Python truthiness of a JSON value. -/
def truthy : Json → Bool
  | .null => false
  | .bool b => b
  | .num n => n != 0
  | .str s => !s.isEmpty
  | .arr xs => !xs.isEmpty
  | .obj kvs => !kvs.isEmpty

/-- Python `x == "<string literal>"` for a JSON value. -/
def jeqStr (j : Json) (s : Str) : Bool :=
  match j with
  | .str t => t == s
  | _ => false

/-- Substring test (Python `needle in haystack` for strings). -/
def isSubstr (needle : Str) : Str → Bool
  | [] => needle.isEmpty
  | c :: rest => needle.isPrefixOf (c :: rest) || isSubstr needle rest

/-- Python `d.get(k, default)`; raises `AttributeError` when the receiver is
not a dict. -/
def dgetD (j : Json) (k : Str) (d : Json) : Except Str Json :=
  match j with
  | .obj kvs => .ok ((lookupKey kvs k).getD d)
  | _ => .error (lit "AttributeError: get")

/-- Python `k in reply` for the backend reply: key membership for a dict,
element membership for a list, substring test for a string, `TypeError`
otherwise. -/
def hasKeyE (j : Json) (k : Str) : Except Str Bool :=
  match j with
  | .obj kvs => .ok (lookupKey kvs k).isSome
  | .arr xs => .ok (xs.any (fun x => jeqStr x k))
  | .str s => .ok (isSubstr k s)
  | _ => .error (lit "TypeError: argument is not iterable")

/-- Python `reply[k]` for a string key. -/
def pyIndex (j : Json) (k : Str) : Except Str Json :=
  match j with
  | .obj kvs =>
    match lookupKey kvs k with
    | some v => .ok v
    | none => .error (lit "KeyError")
  | _ => .error (lit "TypeError: indices must be integers")

/-- Python `organic_results[:n]` followed by iterating the slice as dict
records: a list slices normally; a string slices but its elements (1-char
strings) fail at the first `.get`, so a string yields no records when the
slice is empty and raises otherwise; other types raise `TypeError` at the
slice itself. -/
def pySliceRecords (j : Json) (n : Nat) : Except Str (List Json) :=
  match j with
  | .arr xs => .ok (xs.take n)
  | .str s => if n = 0 || s.isEmpty then .ok [] else .error (lit "AttributeError: get")
  | _ => .error (lit "TypeError: unhashable or unsliceable")

/-- Effectful map over `Except`, preserving order and failing on the first
error (the `for` loop building `formatted_results`). -/
def mapME (f : α → Except Str β) : List α → Except Str (List β)
  | [] => .ok []
  | x :: xs => do
    let y ← f x
    let ys ← mapME f xs
    pure (y :: ys)

/-- The clamp at server.py lines 104 / 185:
`num_results = max(1, min(num_results, 20))`. -/
def numClamp (n : Int) : Int := max 1 (min n 20)

/-- Python `if year_from:` — `None` and `0` are both falsy, so the filter is
omitted in either case. -/
def optTruthy (o : Option Int) : Option Int :=
  match o with
  | some y => if y = 0 then none else some y
  | none => none

/-- Outbound request parameters of `search_scholar` (server.py lines
106-116); `engine` and `api_key` are fixed by the caller's context and the
year filters are present only when truthy. -/
structure ScholarParams where
  q : Str
  num : Int
  as_ylo : Option Int
  as_yhi : Option Int
deriving Repr

/-- Parameter construction of `search_scholar` including the silent clamp
(server.py lines 104-116). -/
def searchParams (query : Str) (year_from year_to : Option Int) (num_results : Int) :
    ScholarParams :=
  { q := query
    num := numClamp num_results
    as_ylo := optTruthy year_from
    as_yhi := optTruthy year_to }

/-- Outbound request parameters of `get_paper_citations` (server.py lines
187-192). -/
structure CitesParams where
  cites : Str
  num : Int
deriving Repr

/-- Parameter construction of `get_paper_citations` including the clamp
(server.py lines 185-192). -/
def citesParams (citation_id : Str) (num_results : Int) : CitesParams :=
  { cites := citation_id, num := numClamp num_results }

/-- `get_api_key()` (server.py lines 55-62): raises `ValueError` when the
`SERPAPI_KEY` environment string is empty. -/
def get_api_key (key : Str) : Except Str Str :=
  if key.isEmpty then
    .error (lit "SERPAPI_KEY environment variable not set. Get a free API key at https://serpapi.com")
  else .ok key

/-- Citation-count extraction of `search_scholar` (server.py line 151):
`result.get("inline_links", {}).get("cited_by", {}).get("total", 0)`. -/
def getCitations (r : Json) : Except Str Json := do
  let il ← dgetD r (lit "inline_links") (Json.obj [])
  let cb ← dgetD il (lit "cited_by") (Json.obj [])
  dgetD cb (lit "total") (Json.num 0)

/-- PDF link extraction of `search_scholar` (server.py line 153):
`result.get("resources", [{}])[0].get("link", "") if result.get("resources") else ""`.
The `[{}]` default is dead (the guard already filtered absent/falsy); a
truthy non-list raises at the indexing or the inner `.get`. -/
def getPdfUrl (r : Json) : Except Str Json := do
  let res ← dgetD r (lit "resources") Json.null
  if truthy res then
    match res with
    | .arr (x :: _) => dgetD x (lit "link") (Json.str [])
    | _ => .error (lit "TypeError: not subscriptable")
  else pure (Json.str [])

/-- One formatted record of `search_scholar`'s result list (server.py lines
145-154); `authors`, `venue` and `year` are the strings produced by the
summary parser, the other fields carry whatever JSON value the backend
supplied. -/
structure FormattedPaper where
  title : Json
  authors : Str
  venue : Str
  year : Str
  snippet : Json
  citations : Json
  url : Json
  pdf_url : Json

/-- Summary field fetch plus parsing for one record (server.py lines
128-147): `pub_info = result.get("publication_info", {})`,
`summary = pub_info.get("summary", "")`; a non-string summary value raises
at the first string operation applied to it. -/
def formatRecord (r : Json) : Except Str FormattedPaper := do
  let pub_info ← dgetD r (lit "publication_info") (Json.obj [])
  let summaryJ ← dgetD pub_info (lit "summary") (Json.str [])
  let summary ←
    match summaryJ with
    | .str s => Except.ok s
    | _ => Except.error (lit "TypeError: summary is not a string")
  let parsed := parseSummary summary
  let title ← dgetD r (lit "title") (Json.str (lit "Unknown"))
  let snippet ← dgetD r (lit "snippet") (Json.str [])
  let citations ← getCitations r
  let url ← dgetD r (lit "link") (Json.str [])
  let pdf ← getPdfUrl r
  pure ⟨title, parsed.authors, parsed.venue, parsed.year, snippet, citations, url, pdf⟩

/-- The result entity of `search_scholar` (the JSON it dumps: `query`,
`total_results`, `results`, and on failure `error` with `query`).  Fields
the Python error returns omit from the JSON are represented at their
zero-values, matching the spec's entity model. -/
structure ScholarOut where
  query : Str
  total_results : Nat
  results : List FormattedPaper
  error : Option Json

/-- Body of `search_scholar` (server.py lines 101-160) up to the enclosing
`try`: any Python exception is an `Except.error`. -/
def searchScholarBody (key query : Str) (year_from year_to : Option Int)
    (num_results : Int) (backend : ScholarParams → Except Str Json) :
    Except Str ScholarOut := do
  let _ ← get_api_key key
  let results ← backend (searchParams query year_from year_to num_results)
  let hasErr ← hasKeyE results (lit "error")
  if hasErr then
    let ev ← pyIndex results (lit "error")
    pure { query := query, total_results := 0, results := [], error := some ev }
  else
    let organicJ ← dgetD results (lit "organic_results") (Json.arr [])
    let taken ← pySliceRecords organicJ (numClamp num_results).toNat
    let formatted ← mapME formatRecord taken
    pure { query := query, total_results := formatted.length,
           results := formatted, error := none }

/-- The `search_scholar` tool (server.py lines 65-164): the surrounding
`try/except` converts every exception into the error payload
`{"error": str(e), "query": query}`. -/
def search_scholar (key query : Str) (year_from year_to : Option Int)
    (num_results : Int) (backend : ScholarParams → Except Str Json) : ScholarOut :=
  match searchScholarBody key query year_from year_to num_results backend with
  | .ok out => out
  | .error e => { query := query, total_results := 0, results := [],
                  error := some (Json.str e) }

/-- One citing-paper record of `get_paper_citations` (server.py lines
205-210); `authors` is the raw `publication_info.summary` value (default
`"Unknown"`), without summary parsing. -/
structure CitPaper where
  title : Json
  authors : Json
  snippet : Json
  url : Json

/-- Record formatting of `get_paper_citations` (server.py lines 203-210). -/
def formatCiting (r : Json) : Except Str CitPaper := do
  let pub_info ← dgetD r (lit "publication_info") (Json.obj [])
  let title ← dgetD r (lit "title") (Json.str (lit "Unknown"))
  let authors ← dgetD pub_info (lit "summary") (Json.str (lit "Unknown"))
  let snippet ← dgetD r (lit "snippet") (Json.str [])
  let url ← dgetD r (lit "link") (Json.str [])
  pure ⟨title, authors, snippet, url⟩

/-- The result entity of `get_paper_citations` (`citation_id`,
`citing_papers_count`, `citing_papers`, and on failure `error` with
`citation_id`). -/
structure CitOut where
  citation_id : Str
  citing_papers_count : Nat
  citing_papers : List CitPaper
  error : Option Json

/-- Body of `get_paper_citations` (server.py lines 182-220). -/
def getPaperCitationsBody (key citation_id : Str) (num_results : Int)
    (backend : CitesParams → Except Str Json) : Except Str CitOut := do
  let _ ← get_api_key key
  let results ← backend (citesParams citation_id num_results)
  let hasErr ← hasKeyE results (lit "error")
  if hasErr then
    let ev ← pyIndex results (lit "error")
    pure { citation_id := citation_id, citing_papers_count := 0,
           citing_papers := [], error := some ev }
  else
    let organicJ ← dgetD results (lit "organic_results") (Json.arr [])
    let taken ← pySliceRecords organicJ (numClamp num_results).toNat
    let formatted ← mapME formatCiting taken
    pure { citation_id := citation_id, citing_papers_count := formatted.length,
           citing_papers := formatted, error := none }

/-- The `get_paper_citations` tool (server.py lines 167-224) with its
`try/except` returning `{"error": str(e), "citation_id": citation_id}`. -/
def get_paper_citations (key citation_id : Str) (num_results : Int)
    (backend : CitesParams → Except Str Json) : CitOut :=
  match getPaperCitationsBody key citation_id num_results backend with
  | .ok out => out
  | .error e => { citation_id := citation_id, citing_papers_count := 0,
                  citing_papers := [], error := some (Json.str e) }

/-- The `cited_by` table extraction of `get_author_profile` (server.py lines
274-276): `cited_by.get("table", [{}])[0].get(field, {}).get("all", 0) if
cited_by.get("table") else 0` for `field` one of `citations`, `h_index`,
`i10_index`. -/
def tableField (cited_by : Json) (field : Str) : Except Str Json := do
  let t ← dgetD cited_by (lit "table") Json.null
  if truthy t then
    match t with
    | .arr (e :: _) => do
      let f ← dgetD e field (Json.obj [])
      dgetD f (lit "all") (Json.num 0)
    | _ => .error (lit "TypeError: not subscriptable")
  else pure (Json.num 0)

theorem get_api_key_ok (key : Str) (h : key ≠ []) : get_api_key key = .ok key := by
  unfold get_api_key
  rw [show key.isEmpty = false from by
    cases key with
    | nil => exact absurd rfl h
    | cons a l => rfl]
  rfl

/-- End-to-end normalization check of the spec's section-8 example: one
organic record with summary "X, Y - NeurIPS, 2022", nested citation count
42 and a link normalizes to the expected single paper. -/
theorem end_to_end_normalization : search_scholar (lit "k") (lit "q") none none 5
    (fun _ => .ok (Json.obj [(lit "organic_results", Json.arr [Json.obj
      [(lit "title", Json.str (lit "T")),
       (lit "publication_info", Json.obj [(lit "summary", Json.str (lit "X, Y - NeurIPS, 2022"))]),
       (lit "inline_links", Json.obj [(lit "cited_by", Json.obj [(lit "total", Json.num 42)])]),
       (lit "link", Json.str (lit "http://x"))]])])) =
    { query := lit "q", total_results := 1,
      results := [{ title := Json.str (lit "T"), authors := lit "X, Y",
                    venue := lit "NeurIPS", year := lit "2022",
                    snippet := Json.str [], citations := Json.num 42,
                    url := Json.str (lit "http://x"), pdf_url := Json.str [] }],
      error := none } := rfl

theorem searchScholarBody_query (key query : Str) (yf yt : Option Int) (n : Int)
    (backend : ScholarParams → Except Str Json) (out : ScholarOut)
    (h : searchScholarBody key query yf yt n backend = .ok out) : out.query = query := by
  unfold searchScholarBody at h
  simp only [bind, Except.bind, pure, Except.pure] at h
  cases hk : get_api_key key with
  | error e => simp only [hk] at h; exact Except.noConfusion h
  | ok k' =>
  simp only [hk] at h
  cases hb : backend (searchParams query yf yt n) with
  | error e => simp only [hb] at h; exact Except.noConfusion h
  | ok rj =>
  simp only [hb] at h
  cases he : hasKeyE rj (lit "error") with
  | error e => simp only [he] at h; exact Except.noConfusion h
  | ok hasErr =>
  simp only [he] at h
  cases hasErr with
  | true =>
    rw [if_pos rfl] at h
    cases hi : pyIndex rj (lit "error") with
    | error e => simp only [hi] at h; exact Except.noConfusion h
    | ok ev => simp only [hi, Except.ok.injEq] at h; subst h; rfl
  | false =>
    rw [if_neg Bool.false_ne_true] at h
    cases ho : dgetD rj (lit "organic_results") (Json.arr []) with
    | error e => simp only [ho] at h; exact Except.noConfusion h
    | ok oj =>
    simp only [ho] at h
    cases hs : pySliceRecords oj (numClamp n).toNat with
    | error e => simp only [hs] at h; exact Except.noConfusion h
    | ok taken =>
    simp only [hs] at h
    cases hm : mapME formatRecord taken with
    | error e => simp only [hm] at h; exact Except.noConfusion h
    | ok fr => simp only [hm, Except.ok.injEq] at h; subst h; rfl

theorem getPaperCitationsBody_cid (key cid : Str) (n : Int)
    (backend : CitesParams → Except Str Json) (out : CitOut)
    (h : getPaperCitationsBody key cid n backend = .ok out) : out.citation_id = cid := by
  unfold getPaperCitationsBody at h
  simp only [bind, Except.bind, pure, Except.pure] at h
  cases hk : get_api_key key with
  | error e => simp only [hk] at h; exact Except.noConfusion h
  | ok k' =>
  simp only [hk] at h
  cases hb : backend (citesParams cid n) with
  | error e => simp only [hb] at h; exact Except.noConfusion h
  | ok rj =>
  simp only [hb] at h
  cases he : hasKeyE rj (lit "error") with
  | error e => simp only [he] at h; exact Except.noConfusion h
  | ok hasErr =>
  simp only [he] at h
  cases hasErr with
  | true =>
    rw [if_pos rfl] at h
    cases hi : pyIndex rj (lit "error") with
    | error e => simp only [hi] at h; exact Except.noConfusion h
    | ok ev => simp only [hi, Except.ok.injEq] at h; subst h; rfl
  | false =>
    rw [if_neg Bool.false_ne_true] at h
    cases ho : dgetD rj (lit "organic_results") (Json.arr []) with
    | error e => simp only [ho] at h; exact Except.noConfusion h
    | ok oj =>
    simp only [ho] at h
    cases hs : pySliceRecords oj (numClamp n).toNat with
    | error e => simp only [hs] at h; exact Except.noConfusion h
    | ok taken =>
    simp only [hs] at h
    cases hm : mapME formatCiting taken with
    | error e => simp only [hm] at h; exact Except.noConfusion h
    | ok fr => simp only [hm, Except.ok.injEq] at h; subst h; rfl

/-- Claim C3 -/
theorem c3_error_passthrough :
    (∀ (key query : Str) (yf yt : Option Int) (n : Int)
       (backend : ScholarParams → Except Str Json) (kvs : List (Str × Json)) (ev : Json),
      key ≠ [] →
      backend (searchParams query yf yt n) = .ok (Json.obj kvs) →
      lookupKey kvs (lit "error") = some ev →
      search_scholar key query yf yt n backend =
        { query := query, total_results := 0, results := [], error := some ev })
    ∧ (∀ (key cid : Str) (n : Int)
       (backend : CitesParams → Except Str Json) (kvs : List (Str × Json)) (ev : Json),
      key ≠ [] →
      backend (citesParams cid n) = .ok (Json.obj kvs) →
      lookupKey kvs (lit "error") = some ev →
      get_paper_citations key cid n backend =
        { citation_id := cid, citing_papers_count := 0, citing_papers := [],
          error := some ev }) := by
  constructor
  · intro key query yf yt n backend kvs ev hk hb he
    unfold search_scholar searchScholarBody
    rw [get_api_key_ok key hk]
    simp only [bind, Except.bind, pure, Except.pure, hb, hasKeyE, he, pyIndex,
      Option.isSome_some, if_true]
  · intro key cid n backend kvs ev hk hb he
    unfold get_paper_citations getPaperCitationsBody
    rw [get_api_key_ok key hk]
    simp only [bind, Except.bind, pure, Except.pure, hb, hasKeyE, he, pyIndex,
      Option.isSome_some, if_true]

/-- Witness for C3 at the spec's error payload. -/
theorem c3_error_passthrough_witness :
    search_scholar (lit "k") (lit "q") none none 10
      (fun _ => .ok (Json.obj [(lit "error", Json.str (lit "quota exceeded"))])) =
    { query := lit "q", total_results := 0, results := [],
      error := some (Json.str (lit "quota exceeded")) } :=
  c3_error_passthrough.1 (lit "k") (lit "q") none none 10 _
    [(lit "error", Json.str (lit "quota exceeded"))] (Json.str (lit "quota exceeded"))
    (by decide) rfl rfl

/-- Claim C4 -/
theorem c4_limit_clamp :
    (∀ (query : Str) (yf yt : Option Int) (n : Int),
      (searchParams query yf yt n).num = max 1 (min n 20)
      ∧ 1 ≤ (searchParams query yf yt n).num
      ∧ (searchParams query yf yt n).num ≤ 20
      ∧ (1 ≤ n → n ≤ 20 → (searchParams query yf yt n).num = n))
    ∧ (∀ (cid : Str) (n : Int), (citesParams cid n).num = max 1 (min n 20))
    ∧ numClamp 0 = 1 ∧ numClamp (-5) = 1 ∧ numClamp 999 = 20 ∧ numClamp 7 = 7
    ∧ (∀ (key query : Str) (yf yt : Option Int) (n : Int), key ≠ [] →
        (search_scholar key query yf yt n (fun _ => .ok (Json.obj []))).error = none) := by
  refine ⟨?_, ?_, by decide, by decide, by decide, by decide, ?_⟩
  · intro query yf yt n
    refine ⟨rfl, ?_, ?_, ?_⟩
    · show (1 : Int) ≤ numClamp n
      unfold numClamp
      exact le_max_left 1 _
    · show numClamp n ≤ 20
      unfold numClamp
      simp only [Int.max_def, Int.min_def]
      split_ifs <;> omega
    · intro h1 h2
      show numClamp n = n
      unfold numClamp
      simp only [Int.max_def, Int.min_def]
      split_ifs
      all_goals omega
  · intro cid n
    rfl
  · intro key query yf yt n hk
    unfold search_scholar searchScholarBody
    rw [get_api_key_ok key hk]
    simp only [bind, Except.bind, pure, Except.pure, hasKeyE, lookupKey, dgetD,
      pySliceRecords, mapME, Option.isSome_none, Option.getD, List.take_nil,
      Bool.false_eq_true, if_neg, if_false]

/-- Witness for C4. -/
theorem c4_limit_clamp_witness :
    (searchParams (lit "q") none none 0).num = 1 ∧
    (searchParams (lit "q") none none 999).num = 20 ∧
    (searchParams (lit "q") none none 7).num = 7 ∧
    (search_scholar (lit "k") (lit "q") none none (-5)
      (fun _ => .ok (Json.obj []))).error = none := by
  refine ⟨?_, ?_, ?_, ?_⟩
  · rw [(c4_limit_clamp.1 (lit "q") none none 0).1]; decide
  · rw [(c4_limit_clamp.1 (lit "q") none none 999).1]; decide
  · exact (c4_limit_clamp.1 (lit "q") none none 7).2.2.2 (by decide) (by decide)
  · exact c4_limit_clamp.2.2.2.2.2.2 (lit "k") (lit "q") none none (-5) (by decide)

/-- Claim C5 -/
theorem c5_citation_default_zero :
    (∀ kvs : List (Str × Json), lookupKey kvs (lit "inline_links") = none →
      getCitations (Json.obj kvs) = .ok (Json.num 0))
    ∧ (∀ (kvs kvs2 : List (Str × Json)),
      lookupKey kvs (lit "inline_links") = some (Json.obj kvs2) →
      lookupKey kvs2 (lit "cited_by") = none →
      getCitations (Json.obj kvs) = .ok (Json.num 0))
    ∧ (∀ (kvs kvs2 kvs3 : List (Str × Json)),
      lookupKey kvs (lit "inline_links") = some (Json.obj kvs2) →
      lookupKey kvs2 (lit "cited_by") = some (Json.obj kvs3) →
      lookupKey kvs3 (lit "total") = none →
      getCitations (Json.obj kvs) = .ok (Json.num 0))
    ∧ (∀ (kvs : List (Str × Json)) (f : Str), lookupKey kvs (lit "table") = none →
      tableField (Json.obj kvs) f = .ok (Json.num 0))
    ∧ (∀ (kvs : List (Str × Json)) (f : Str),
      lookupKey kvs (lit "table") = some (Json.arr []) →
      tableField (Json.obj kvs) f = .ok (Json.num 0))
    ∧ (∀ (kvs e : List (Str × Json)) (rest : List Json) (f : Str),
      lookupKey kvs (lit "table") = some (Json.arr (Json.obj e :: rest)) →
      lookupKey e f = none →
      tableField (Json.obj kvs) f = .ok (Json.num 0))
    ∧ (∀ (kvs e fv : List (Str × Json)) (rest : List Json) (f : Str),
      lookupKey kvs (lit "table") = some (Json.arr (Json.obj e :: rest)) →
      lookupKey e f = some (Json.obj fv) →
      lookupKey fv (lit "all") = none →
      tableField (Json.obj kvs) f = .ok (Json.num 0)) := by
  refine ⟨?_, ?_, ?_, ?_, ?_, ?_, ?_⟩
  · intro kvs h
    simp only [getCitations, dgetD, bind, Except.bind, h, Option.getD, lookupKey]
  · intro kvs kvs2 h h2
    simp only [getCitations, dgetD, bind, Except.bind, h, h2, Option.getD, lookupKey]
  · intro kvs kvs2 kvs3 h h2 h3
    simp only [getCitations, dgetD, bind, Except.bind, h, h2, h3, Option.getD, lookupKey]
  · intro kvs f h
    simp only [tableField, dgetD, bind, Except.bind, h, Option.getD, truthy, pure,
      Except.pure, Bool.false_eq_true, if_false]
  · intro kvs f h
    simp only [tableField, dgetD, bind, Except.bind, h, Option.getD, truthy, pure,
      Except.pure, List.isEmpty_nil, Bool.not_true, Bool.false_eq_true, if_false]
  · intro kvs e rest f h he
    simp only [tableField, dgetD, bind, Except.bind, h, he, Option.getD, truthy, pure,
      Except.pure, List.isEmpty_cons, Bool.not_false, if_true, lookupKey]
  · intro kvs e fv rest f h he hf
    simp only [tableField, dgetD, bind, Except.bind, h, he, hf, Option.getD, truthy, pure,
      Except.pure, List.isEmpty_cons, Bool.not_false, if_true, lookupKey]

/-- Witness for C5 at concrete partially-nested records. -/
theorem c5_citation_default_zero_witness :
    getCitations (Json.obj [(lit "title", Json.str (lit "T"))]) = .ok (Json.num 0) ∧
    getCitations (Json.obj [(lit "inline_links", Json.obj [])]) = .ok (Json.num 0) ∧
    tableField (Json.obj [(lit "table", Json.arr [Json.obj []])]) (lit "h_index") =
      .ok (Json.num 0) := by
  refine ⟨?_, ?_, ?_⟩
  · exact c5_citation_default_zero.1 [(lit "title", Json.str (lit "T"))] rfl
  · exact c5_citation_default_zero.2.1 [(lit "inline_links", Json.obj [])] [] rfl rfl
  · exact c5_citation_default_zero.2.2.2.2.2.1 [(lit "table", Json.arr [Json.obj []])]
      [] [] (lit "h_index") rfl rfl

/-- Claim C8 -/
theorem c8_no_raise :
    (∀ (key query : Str) (yf yt : Option Int) (n : Int)
       (backend : ScholarParams → Except Str Json) (e : Str),
      key ≠ [] →
      backend (searchParams query yf yt n) = .error e →
      search_scholar key query yf yt n backend =
        { query := query, total_results := 0, results := [],
          error := some (Json.str e) })
    ∧ (∀ (key query : Str) (yf yt : Option Int) (n : Int)
       (backend : ScholarParams → Except Str Json),
      (search_scholar key query yf yt n backend).query = query)
    ∧ (∀ (key cid : Str) (n : Int) (backend : CitesParams → Except Str Json) (e : Str),
      key ≠ [] →
      backend (citesParams cid n) = .error e →
      get_paper_citations key cid n backend =
        { citation_id := cid, citing_papers_count := 0, citing_papers := [],
          error := some (Json.str e) })
    ∧ (∀ (key cid : Str) (n : Int) (backend : CitesParams → Except Str Json),
      (get_paper_citations key cid n backend).citation_id = cid) := by
  refine ⟨?_, ?_, ?_, ?_⟩
  · intro key query yf yt n backend e hk hb
    unfold search_scholar searchScholarBody
    rw [get_api_key_ok key hk]
    simp only [bind, Except.bind, hb]
  · intro key query yf yt n backend
    unfold search_scholar
    cases hbody : searchScholarBody key query yf yt n backend with
    | ok out => exact searchScholarBody_query key query yf yt n backend out hbody
    | error e => rfl
  · intro key cid n backend e hk hb
    unfold get_paper_citations getPaperCitationsBody
    rw [get_api_key_ok key hk]
    simp only [bind, Except.bind, hb]
  · intro key cid n backend
    unfold get_paper_citations
    cases hbody : getPaperCitationsBody key cid n backend with
    | ok out => exact getPaperCitationsBody_cid key cid n backend out hbody
    | error e => rfl

/-- Witness for C8 at a concrete transport failure. -/
theorem c8_no_raise_witness :
    search_scholar (lit "k") (lit "q") none none 10 (fun _ => .error (lit "timeout")) =
      { query := lit "q", total_results := 0, results := [],
        error := some (Json.str (lit "timeout")) } ∧
    get_paper_citations (lit "k") (lit "42") 3 (fun _ => .error (lit "timeout")) =
      { citation_id := lit "42", citing_papers_count := 0, citing_papers := [],
        error := some (Json.str (lit "timeout")) } :=
  ⟨c8_no_raise.1 (lit "k") (lit "q") none none 10 _ (lit "timeout") (by decide) rfl,
   c8_no_raise.2.2.1 (lit "k") (lit "42") 3 _ (lit "timeout") (by decide) rfl⟩

theorem mapME_length (f : α → Except Str β) :
    ∀ (l : List α) (ys : List β), mapME f l = .ok ys → ys.length = l.length
  | [], ys, h => by
    cases h
    rfl
  | x :: xs, ys, h => by
    simp only [mapME, bind, Except.bind, pure, Except.pure] at h
    cases hfx : f x with
    | error e => simp only [hfx] at h; exact Except.noConfusion h
    | ok y =>
    simp only [hfx] at h
    cases hrec : mapME f xs with
    | error e => simp only [hrec] at h; exact Except.noConfusion h
    | ok ys' =>
    simp only [hrec, Except.ok.injEq] at h
    subst h
    simp only [List.length_cons, mapME_length f xs ys' hrec]

/-- Claim C9 is false as stated: requesting `num_results = 0` silently
clamps the limit to 1, so a backend reply with one record yields one paper,
which exceeds the requested count 0. -/
theorem c9_length_counterexample :
    (search_scholar (lit "k") (lit "q") none none 0
      (fun _ => .ok (Json.obj [(lit "organic_results", Json.arr [Json.obj []])]))).results.length = 1 ∧
    ¬ ((1 : Int) ≤ 0) := by
  exact ⟨rfl, by decide⟩

/-- Claim C9, amended: the papers sequence is the in-order image of the
first `max 1 (min num_results 20)` backend records (so backend relevance
order is preserved), its length is at most that clamped limit, and hence at
most the requested count whenever the requested count is at least 1. -/
theorem c9_length_amended :
    ∀ (key query : Str) (yf yt : Option Int) (n : Int)
      (backend : ScholarParams → Except Str Json) (kvs : List (Str × Json))
      (xs : List Json) (fr : List FormattedPaper),
      key ≠ [] →
      backend (searchParams query yf yt n) = .ok (Json.obj kvs) →
      lookupKey kvs (lit "error") = none →
      lookupKey kvs (lit "organic_results") = some (Json.arr xs) →
      mapME formatRecord (xs.take (numClamp n).toNat) = .ok fr →
      search_scholar key query yf yt n backend =
        { query := query, total_results := fr.length, results := fr, error := none }
      ∧ fr.length ≤ (numClamp n).toNat
      ∧ (1 ≤ n → (fr.length : Int) ≤ n) := by
  intro key query yf yt n backend kvs xs fr hk hb he ho hm
  have hlen : fr.length ≤ (numClamp n).toNat := by
    rw [mapME_length formatRecord _ fr hm, List.length_take]
    exact min_le_left _ _
  refine ⟨?_, hlen, ?_⟩
  · unfold search_scholar searchScholarBody
    rw [get_api_key_ok key hk]
    simp only [bind, Except.bind, pure, Except.pure, hb, hasKeyE, he, dgetD, ho,
      Option.isSome_none, Bool.false_eq_true, if_false, Option.getD, pySliceRecords, hm]
  · intro h1
    have hc : numClamp n ≤ n := by
      unfold numClamp
      simp only [Int.max_def, Int.min_def]
      split_ifs <;> omega
    have : ((numClamp n).toNat : Int) ≤ n := by
      have h0 : (1 : Int) ≤ numClamp n := le_max_left 1 _
      omega
    omega

/-- Witness for the amended C9: requesting 2 with three backend records
yields the first two, in order. -/
theorem c9_length_amended_witness :
    search_scholar (lit "k") (lit "q") none none 2
      (fun _ => .ok (Json.obj [(lit "organic_results", Json.arr
        [Json.obj [(lit "title", Json.str (lit "P1"))],
         Json.obj [(lit "title", Json.str (lit "P2"))],
         Json.obj [(lit "title", Json.str (lit "P3"))]])])) =
      { query := lit "q", total_results := 2,
        results := [
          { title := Json.str (lit "P1"), authors := [], venue := lit "Unknown",
            year := lit "Unknown", snippet := Json.str [], citations := Json.num 0,
            url := Json.str [], pdf_url := Json.str [] },
          { title := Json.str (lit "P2"), authors := [], venue := lit "Unknown",
            year := lit "Unknown", snippet := Json.str [], citations := Json.num 0,
            url := Json.str [], pdf_url := Json.str [] }],
        error := none } := by
  have h := (c9_length_amended (lit "k") (lit "q") none none 2
    (fun _ => .ok (Json.obj [(lit "organic_results", Json.arr
        [Json.obj [(lit "title", Json.str (lit "P1"))],
         Json.obj [(lit "title", Json.str (lit "P2"))],
         Json.obj [(lit "title", Json.str (lit "P3"))]])]))
    [(lit "organic_results", Json.arr
        [Json.obj [(lit "title", Json.str (lit "P1"))],
         Json.obj [(lit "title", Json.str (lit "P2"))],
         Json.obj [(lit "title", Json.str (lit "P3"))]])]
    [Json.obj [(lit "title", Json.str (lit "P1"))],
     Json.obj [(lit "title", Json.str (lit "P2"))],
     Json.obj [(lit "title", Json.str (lit "P3"))]]
    [{ title := Json.str (lit "P1"), authors := [], venue := lit "Unknown",
       year := lit "Unknown", snippet := Json.str [], citations := Json.num 0,
       url := Json.str [], pdf_url := Json.str [] },
     { title := Json.str (lit "P2"), authors := [], venue := lit "Unknown",
       year := lit "Unknown", snippet := Json.str [], citations := Json.num 0,
       url := Json.str [], pdf_url := Json.str [] }]
    (by decide) rfl rfl rfl rfl).1
  exact h

/-! The free-text dispatch flow (chat.py and examples/ollama_example.py).
`extract_json_block` is embedded by compiling its two `re.search` patterns
into deterministic scanners and `json.loads` into a fuel-indexed JSON
parser (integers only: no float occurs on any dispatch path a claim
depends on). -/

/-- Left and right curly brace characters. -/
def lbrace : Char := Char.ofNat 123

def rbrace : Char := Char.ofNat 125

/-- The backtick character. -/
def btick : Char := Char.ofNat 96

/-- JSON whitespace accepted by `json.loads` between tokens. -/
def isJsonWs (c : Char) : Bool := c == ' ' || c == '\t' || c == '\n' || c == '\r'

def skipJWs (s : Str) : Str := s.dropWhile isJsonWs

/-- Python `\s*`: greedy whitespace skip. -/
def skipPyWs (s : Str) : Str := s.dropWhile isPySpace

def hexVal (c : Char) : Option Nat :=
  if c.isDigit then some (c.toNat - 48)
  else if 'a' <= c && c <= 'f' then some (c.toNat - 87)
  else if 'A' <= c && c <= 'F' then some (c.toNat - 55)
  else none

/-- JSON string body parser (after the opening quote): standard escapes,
`\uXXXX`, and rejection of raw control characters, per `json.loads`. -/
def jparseStr : Str → Str → Option (Str × Str)
  | [], _ => none
  | '"' :: rest, acc => some (acc.reverse, rest)
  | '\\' :: 'u' :: h1 :: h2 :: h3 :: h4 :: rest, acc =>
    match hexVal h1, hexVal h2, hexVal h3, hexVal h4 with
    | some a, some b, some c, some d =>
      jparseStr rest (Char.ofNat (((a * 16 + b) * 16 + c) * 16 + d) :: acc)
    | _, _, _, _ => none
  | '\\' :: e :: rest, acc =>
    if e == '"' then jparseStr rest ('"' :: acc)
    else if e == '\\' then jparseStr rest ('\\' :: acc)
    else if e == '/' then jparseStr rest ('/' :: acc)
    else if e == 'b' then jparseStr rest (Char.ofNat 8 :: acc)
    else if e == 'f' then jparseStr rest (Char.ofNat 12 :: acc)
    else if e == 'n' then jparseStr rest ('\n' :: acc)
    else if e == 'r' then jparseStr rest ('\r' :: acc)
    else if e == 't' then jparseStr rest ('\t' :: acc)
    else none
  | c :: rest, acc => if c.toNat < 32 then none else jparseStr rest (c :: acc)

def digitsToInt (ds : Str) : Int :=
  ds.foldl (fun a c => a * 10 + ((c.toNat : Int) - 48)) 0

/-- JSON number parser, integers only (a fraction or exponent makes the
parse fail, which surfaces as a `loads` failure). -/
def jparseNum (s : Str) : Option (Json × Str) :=
  let neg := match s with
    | '-' :: _ => true
    | _ => false
  let s1 := if neg then s.drop 1 else s
  let ds := s1.takeWhile Char.isDigit
  let rest := s1.dropWhile Char.isDigit
  if ds.isEmpty then none
  else if decide (ds.length > 1) && ds.headD '0' == '0' then none
  else
    match rest with
    | '.' :: _ => none
    | 'e' :: _ => none
    | 'E' :: _ => none
    | _ => some (Json.num (if neg then -(digitsToInt ds) else digitsToInt ds), rest)

/-- Insertion into an object under construction: later duplicate keys
overwrite the earlier value in place, as for a Python dict. -/
def insertKV : List (Str × Json) → Str → Json → List (Str × Json)
  | [], k, v => [(k, v)]
  | (k', v') :: t, k, v =>
    if k' = k then (k', v) :: t else (k', v') :: insertKV t k v

mutual

/-- Fuel-indexed JSON value parser (`json.loads` grammar). -/
def jparseVal : Nat → Str → Option (Json × Str)
  | 0, _ => none
  | fuel+1, s =>
    match skipJWs s with
    | '"' :: rest =>
      match jparseStr rest [] with
      | some (t, r) => some (Json.str t, r)
      | none => none
    | 't' :: 'r' :: 'u' :: 'e' :: rest => some (Json.bool true, rest)
    | 'f' :: 'a' :: 'l' :: 's' :: 'e' :: rest => some (Json.bool false, rest)
    | 'n' :: 'u' :: 'l' :: 'l' :: rest => some (Json.null, rest)
    | '[' :: rest => jparseArr fuel rest
    | c :: rest =>
      if c == lbrace then jparseObj fuel rest
      else jparseNum (c :: rest)
    | [] => none

/-- Object parser, positioned after the opening brace. -/
def jparseObj : Nat → Str → Option (Json × Str)
  | 0, _ => none
  | fuel+1, s =>
    match skipJWs s with
    | c :: rest =>
      if c == rbrace then some (Json.obj [], rest)
      else jparseMembers fuel (c :: rest) []
    | [] => none

/-- One or more `"key": value` members separated by commas. -/
def jparseMembers : Nat → Str → List (Str × Json) → Option (Json × Str)
  | 0, _, _ => none
  | fuel+1, s, acc =>
    match skipJWs s with
    | '"' :: rest =>
      match jparseStr rest [] with
      | some (k, r1) =>
        match skipJWs r1 with
        | ':' :: r2 =>
          match jparseVal fuel r2 with
          | some (v, r3) =>
            match skipJWs r3 with
            | ',' :: r4 => jparseMembers fuel r4 (insertKV acc k v)
            | c :: r4 =>
              if c == rbrace then some (Json.obj (insertKV acc k v), r4) else none
            | [] => none
          | none => none
        | _ => none
      | none => none
    | _ => none

/-- Array parser, positioned after the opening bracket. -/
def jparseArr : Nat → Str → Option (Json × Str)
  | 0, _ => none
  | fuel+1, s =>
    match skipJWs s with
    | ']' :: rest => some (Json.arr [], rest)
    | s' => jparseItems fuel s' []

/-- One or more array items separated by commas (reversed accumulator). -/
def jparseItems : Nat → Str → List Json → Option (Json × Str)
  | 0, _, _ => none
  | fuel+1, s, acc =>
    match jparseVal fuel s with
    | some (v, r1) =>
      match skipJWs r1 with
      | ',' :: r2 => jparseItems fuel r2 (v :: acc)
      | ']' :: r2 => some (Json.arr (v :: acc).reverse, r2)
      | _ => none
    | none => none

end

/-- Python `json.loads`: a complete JSON document with only trailing
whitespace allowed.  The fuel bound is generous: every recursive step
consumes input. -/
def json_loads (s : Str) : Option Json :=
  match jparseVal (4 * s.length + 4) s with
  | some (v, rest) => if (skipJWs rest).isEmpty then some v else none
  | none => none

/-- Group extraction for the fenced regex, positioned after the `{` of the
group: the regex `\{[^`]+\}\s*` + closing fence requires the closing fence
to start at the first backtick after the brace, preceded (modulo
whitespace) by a `}` with at least one character between the braces. -/
def fenceGroup (afterBrace : Str) : Option Str :=
  let pre := afterBrace.takeWhile (fun c => c != btick)
  let post := afterBrace.dropWhile (fun c => c != btick)
  match post with
  | b1 :: b2 :: b3 :: _ =>
    if b1 == btick && b2 == btick && b3 == btick then
      match pre.reverse.dropWhile isPySpace with
      | c :: revBody =>
        if c == rbrace && !revBody.isEmpty then
          some (lbrace :: (revBody.reverse ++ [rbrace]))
        else none
      | [] => none
    else none
  | _ => none

/-- Attempt of the fenced regex at the current position: the opening fence,
the greedy optional `json` tag, greedy `\s*`, then the brace group. -/
def matchFencedAt (s : Str) : Option Str :=
  let tryBody : Str → Option Str := fun r =>
    match skipPyWs r with
    | c :: body => if c == lbrace then fenceGroup body else none
    | [] => none
  match s with
  | b1 :: b2 :: b3 :: rest =>
    if b1 == btick && b2 == btick && b3 == btick then
      let withTag : Option Str :=
        match rest with
        | 'j' :: 's' :: 'o' :: 'n' :: r2 => tryBody r2
        | _ => none
      match withTag with
      | some g => some g
      | none => tryBody rest
    else none
  | _ => none

/-- `re.search` for the fenced pattern: leftmost position whose attempt
succeeds. -/
def searchFenced : Str → Option Str
  | [] => none
  | c :: rest =>
    match matchFencedAt (c :: rest) with
    | some g => some g
    | none => searchFenced rest

/-- Attempt of the bare-object regex `\{[^{}]*"action"[^{}]*\}` at the
current position: the first brace character after the opening one must be a
closing brace and the segment between must contain `"action"` quoted. -/
def matchBareAt (s : Str) : Option Str :=
  match s with
  | c :: rest =>
    if c == lbrace then
      let seg := rest.takeWhile (fun d => d != lbrace && d != rbrace)
      let remd := rest.dropWhile (fun d => d != lbrace && d != rbrace)
      match remd with
      | d :: _ =>
        if d == rbrace && isSubstr (lit "\"action\"") seg then
          some (lbrace :: (seg ++ [rbrace]))
        else none
      | [] => none
    else none
  | [] => none

/-- `re.search` for the bare-object pattern. -/
def searchBare : Str → Option Str
  | [] => none
  | c :: rest =>
    match matchBareAt (c :: rest) with
    | some g => some g
    | none => searchBare rest

/-- `extract_json_block` (chat.py lines 51-67 and ollama_example.py lines
43-61): first the fenced pattern, falling back to the bare pattern when no
fenced match exists or its group fails to load. -/
def extract_json_block (text : Str) : Option Json :=
  let viaBare : Option Json :=
    match searchBare text with
    | some g => json_loads g
    | none => none
  match searchFenced text with
  | some g =>
    match json_loads g with
    | some v => some v
    | none => viaBare
  | none => viaBare

/-- The system prompt of examples/ollama_example.py (lines 25-40). -/
def ollamaSystemPrompt : Str :=
  lit "You are a helpful research assistant with access to Google Scholar search.\n\nWhen the user asks about academic papers or research, you should request a search by outputting a JSON block like this:\n\n```json\n\x7b\"action\": \"search\", \"query\": \"your search terms\", \"num_results\": 5, \"year_from\": 2023\x7d\n```\n\nParameters:\n- query: The search terms (required)\n- num_results: Number of papers to return (optional, default 5)\n- year_from: Only papers from this year onwards (optional)\n- year_to: Only papers until this year (optional)\n\nAfter receiving search results, summarize them helpfully for the user.\nIf the user's question doesn't require a search, just respond normally."

/-- The system prompt of chat.py (lines 20-48). -/
def chatSystemPrompt : Str :=
  lit "You are a helpful research assistant with access to Google Scholar search.\n\nSTART by greeting the user and asking what academic topic they'd like to search for. Explain the search format options:\n\n**Search Format Guide:**\n- Basic search: Just type your topic (e.g., \"machine learning\")\n- Find preprints: Add \"arxiv\" (e.g., \"transformer models arxiv\")\n- Conference papers: Add conference name (e.g., \"attention mechanism NeurIPS\")\n- Recent papers: Mention the year (e.g., \"RAG papers from 2024\")\n- Specific field: Add field terms (e.g., \"protein folding deep learning\")\n\nWhen the user provides a search request, output a JSON block to execute the search:\n\n```json\n\x7b\"action\": \"search\", \"query\": \"search terms\", \"num_results\": 5, \"year_from\": 2023\x7d\n```\n\nParameters:\n- query: The search terms (required)\n- num_results: Number of papers to return (optional, default 5)\n- year_from: Only papers from this year onwards (optional)\n- year_to: Only papers until this year (optional)\n\nAfter receiving results, summarize them clearly and ask if they want to:\n- Search for something else\n- Refine the search\n- Get more details about a specific paper\n\nBe conversational and helpful."

/-- Modelled from the spec: the scholar library's Paper record
(scholar/search.py is not under src/; section 3 of the spec defines its
fields).  The dispatch flow only reads the fields displayed by
`format_results`. -/
structure PaperR where
  title : Str
  authors : Str
  venue : Str
  year : Str
  citations : Int
  url : Str
  snippet : Str

/-- Modelled from the spec: the scholar library's ScholarResult entity
(query, total_results, ordered papers, optional error). -/
structure ScholarResultR where
  query : Str
  total_results : Int
  papers : List PaperR
  error : Option Str

def natToStr (n : Nat) : Str := Nat.toDigits 10 n

def intToStr (n : Int) : Str :=
  if n < 0 then '-' :: natToStr n.natAbs else natToStr n.toNat

/-- The lines printed for one enumerated paper by `format_results`
(ollama_example.py lines 70-77; chat.py lines 76-85 adds the 200-character
snippet line). -/
def formatPaperLines (snippetToo : Bool) (ip : Nat × PaperR) : List Str :=
  [natToStr ip.1 ++ lit ". " ++ ip.2.title,
   lit "   Authors: " ++ ip.2.authors,
   lit "   Venue: " ++ ip.2.venue ++ lit " (" ++ ip.2.year ++ lit ")",
   lit "   Citations: " ++ intToStr ip.2.citations]
  ++ (if ip.2.url.isEmpty then [] else [lit "   URL: " ++ ip.2.url])
  ++ (if snippetToo && !ip.2.snippet.isEmpty then
        [lit "   Summary: " ++ ip.2.snippet.take 200 ++ lit "..."]
      else [])
  ++ [[]]

/-- `format_results` (ollama_example.py lines 64-79 with `snippetToo :=
false`; chat.py lines 70-87 with `snippetToo := true`). -/
def format_results (snippetToo : Bool) (results : ScholarResultR) : Str :=
  match results.error with
  | some e => lit "Search error: " ++ e
  | none =>
    List.intercalate ['\n']
      ((lit "Found " ++ intToStr results.total_results ++ lit " papers:" ++ ['\n'])
        :: ((results.papers.enumFrom 1).map (formatPaperLines snippetToo)).flatten)

/-- A conversation message: role and content. -/
abbrev Msg := Str × Str

/-- `action.get(k, default)` on the extracted action value. -/
def jget (j : Json) (k : Str) (d : Json) : Json :=
  match j with
  | .obj kvs => (lookupKey kvs k).getD d
  | _ => d

/-- The `"action"` entry of an extracted value (`action.get("action")`),
`none` when absent or when the value is not an object. -/
def actionField (j : Json) : Option Json :=
  match j with
  | .obj kvs => lookupKey kvs (lit "action")
  | _ => none

/-- The dispatch condition `if action and action.get("action") == "search"`
(ollama_example.py line 107, chat.py line 133). -/
def wantsSearch (action : Option Json) : Bool :=
  match action with
  | some a =>
    truthy a &&
      (match actionField a with
       | some v => jeqStr v (lit "search")
       | none => false)
  | none => false

/-- The trace of one `chat_with_scholar` call: the returned text, the
number of model calls, and the number of searches executed. -/
structure DispatchOut where
  reply : Str
  modelCalls : Nat
  searches : Nat

/-- `chat_with_scholar` of examples/ollama_example.py (lines 82-135); the
Ollama `chat` endpoint and the scholar library's `search_scholar` are the
external collaborators, supplied as oracles. -/
def chat_with_scholar (model : List Msg → Str)
    (searchFn : Json → Json → Json → Json → ScholarResultR)
    (user_message : Str) : DispatchOut :=
  let messages : List Msg := [(lit "system", ollamaSystemPrompt), (lit "user", user_message)]
  let response_text := model messages
  let action := extract_json_block response_text
  if wantsSearch action then
    let a := action.getD Json.null
    let results := searchFn (jget a (lit "query") (Json.str []))
      (jget a (lit "year_from") Json.null)
      (jget a (lit "year_to") Json.null)
      (jget a (lit "num_results") (Json.num 5))
    let formatted := format_results false results
    let messages2 := messages ++
      [(lit "assistant", response_text),
       (lit "user", lit "Here are the search results:\n\n" ++ formatted ++
         lit "\n\nPlease summarize these findings for the user.")]
    let final_response := model messages2
    ⟨final_response, 2, 1⟩
  else ⟨response_text, 1, 0⟩

/-- The outcome of one REPL turn of chat.py: the conversation history after
the turn, the number of model calls, and the number of searches. -/
structure TurnOut where
  messages : List Msg
  modelCalls : Nat
  searches : Nat

/-- One iteration of the REPL loop of chat.py `main` (lines 107-169) for a
non-empty, non-quit user input. -/
def chat_turn (model : List Msg → Str)
    (searchFn : Json → Json → Json → Json → ScholarResultR)
    (messages : List Msg) (user_input : Str) : TurnOut :=
  let messages1 := messages ++ [(lit "user", user_input)]
  let assistant_message := model messages1
  let action := extract_json_block assistant_message
  if wantsSearch action then
    let a := action.getD Json.null
    let results := searchFn (jget a (lit "query") (Json.str []))
      (jget a (lit "year_from") Json.null)
      (jget a (lit "year_to") Json.null)
      (jget a (lit "num_results") (Json.num 5))
    let messages2 := messages1 ++ [(lit "assistant", assistant_message)]
    let formatted := format_results true results
    let messages3 := messages2 ++ [(lit "user",
      lit "Here are the search results:\n\n" ++ formatted ++
      lit "\n\nPlease summarize these findings for me.")]
    let summary := model messages3
    ⟨messages3 ++ [(lit "assistant", summary)], 2, 1⟩
  else ⟨messages1 ++ [(lit "assistant", assistant_message)], 1, 0⟩

/-- Claim C7 -/
theorem c7_dispatch_roundtrips :
    (∀ (model : List Msg → Str) (searchFn : Json → Json → Json → Json → ScholarResultR)
       (u : Str) (j : Json),
      extract_json_block (model [(lit "system", ollamaSystemPrompt), (lit "user", u)]) = some j →
      wantsSearch (some j) = true →
      (chat_with_scholar model searchFn u).modelCalls = 2 ∧
      (chat_with_scholar model searchFn u).searches = 1)
    ∧ (∀ (model : List Msg → Str) (searchFn : Json → Json → Json → Json → ScholarResultR)
       (u : Str),
      extract_json_block (model [(lit "system", ollamaSystemPrompt), (lit "user", u)]) = none →
      (chat_with_scholar model searchFn u).modelCalls = 1 ∧
      (chat_with_scholar model searchFn u).searches = 0)
    ∧ (∀ (model : List Msg → Str) (searchFn : Json → Json → Json → Json → ScholarResultR)
       (messages : List Msg) (u : Str) (j : Json),
      extract_json_block (model (messages ++ [(lit "user", u)])) = some j →
      wantsSearch (some j) = true →
      (chat_turn model searchFn messages u).modelCalls = 2 ∧
      (chat_turn model searchFn messages u).searches = 1)
    ∧ (∀ (model : List Msg → Str) (searchFn : Json → Json → Json → Json → ScholarResultR)
       (messages : List Msg) (u : Str),
      extract_json_block (model (messages ++ [(lit "user", u)])) = none →
      (chat_turn model searchFn messages u).modelCalls = 1 ∧
      (chat_turn model searchFn messages u).searches = 0) := by
  refine ⟨?_, ?_, ?_, ?_⟩
  · intro model searchFn u j hext hws
    unfold chat_with_scholar
    simp only [hext, hws, if_true]
    exact ⟨by trivial, by trivial⟩
  · intro model searchFn u hext
    unfold chat_with_scholar
    simp only [hext]
    exact ⟨by trivial, by trivial⟩
  · intro model searchFn messages u j hext hws
    unfold chat_turn
    simp only [hext, hws, if_true]
    exact ⟨by trivial, by trivial⟩
  · intro model searchFn messages u hext
    unfold chat_turn
    simp only [hext]
    exact ⟨by trivial, by trivial⟩

/-- Witness for C7: a model that emits one fenced search action triggers
exactly one search and one follow-up call; a model that emits plain text
triggers none. -/
theorem c7_dispatch_roundtrips_witness :
    (chat_with_scholar
      (fun _ => lit "```json\n\x7b\"action\": \"search\", \"query\": \"rag\"\x7d\n```")
      (fun _ _ _ _ => ⟨lit "rag", 0, [], none⟩) (lit "find rag papers")).modelCalls = 2 ∧
    (chat_with_scholar
      (fun _ => lit "```json\n\x7b\"action\": \"search\", \"query\": \"rag\"\x7d\n```")
      (fun _ _ _ _ => ⟨lit "rag", 0, [], none⟩) (lit "find rag papers")).searches = 1 ∧
    (chat_with_scholar (fun _ => lit "I need more detail to search.")
      (fun _ _ _ _ => ⟨lit "", 0, [], none⟩) (lit "hello")).modelCalls = 1 ∧
    (chat_with_scholar (fun _ => lit "I need more detail to search.")
      (fun _ _ _ _ => ⟨lit "", 0, [], none⟩) (lit "hello")).searches = 0 := by
  have h1 := c7_dispatch_roundtrips.1
    (fun _ => lit "```json\n\x7b\"action\": \"search\", \"query\": \"rag\"\x7d\n```")
    (fun _ _ _ _ => ⟨lit "rag", 0, [], none⟩) (lit "find rag papers")
    (Json.obj [(lit "action", Json.str (lit "search")), (lit "query", Json.str (lit "rag"))])
    rfl rfl
  have h2 := c7_dispatch_roundtrips.2.1
    (fun _ => lit "I need more detail to search.")
    (fun _ _ _ _ => ⟨lit "", 0, [], none⟩) (lit "hello") rfl
  exact ⟨h1.1, h1.2, h2.1, h2.2⟩

theorem wantsSearch_eq_false (j : Json)
    (h : actionField j ≠ some (Json.str (lit "search"))) :
    wantsSearch (some j) = false := by
  unfold wantsSearch
  cases ha : actionField j with
  | none => simp [ha]
  | some v =>
    have hv : jeqStr v (lit "search") = false := by
      cases v with
      | str t =>
        simp only [jeqStr, beq_eq_false_iff_ne, ne_eq]
        intro he
        exact h (by rw [ha, he])
      | null => rfl
      | bool b => rfl
      | num n => rfl
      | arr xs => rfl
      | obj kvs => rfl
    simp [ha, hv]

/-- Claim C10 -/
theorem c10_non_search_action :
    (∀ (model : List Msg → Str) (searchFn : Json → Json → Json → Json → ScholarResultR)
       (messages : List Msg) (u : Str) (j : Json),
      extract_json_block (model (messages ++ [(lit "user", u)])) = some j →
      actionField j ≠ some (Json.str (lit "search")) →
      chat_turn model searchFn messages u =
        ⟨messages ++ [(lit "user", u),
          (lit "assistant", model (messages ++ [(lit "user", u)]))], 1, 0⟩)
    ∧ (∀ (model : List Msg → Str) (searchFn : Json → Json → Json → Json → ScholarResultR)
       (u : Str) (j : Json),
      extract_json_block (model [(lit "system", ollamaSystemPrompt), (lit "user", u)]) = some j →
      actionField j ≠ some (Json.str (lit "search")) →
      chat_with_scholar model searchFn u =
        ⟨model [(lit "system", ollamaSystemPrompt), (lit "user", u)], 1, 0⟩) := by
  constructor
  · intro model searchFn messages u j hext hact
    unfold chat_turn
    simp only [hext, wantsSearch_eq_false j hact, Bool.false_eq_true, if_false,
      List.append_assoc, List.cons_append, List.nil_append]
  · intro model searchFn u j hext hact
    unfold chat_with_scholar
    simp only [hext, wantsSearch_eq_false j hact, Bool.false_eq_true, if_false]

/-- Witness for C10: a fenced block whose action is "lookup" is treated as
no tool request — the turn appends the assistant text unchanged with no
search. -/
theorem c10_non_search_action_witness :
    chat_turn (fun _ => lit "```json\n\x7b\"action\": \"lookup\"\x7d\n```")
      (fun _ _ _ _ => ⟨lit "", 0, [], none⟩) [] (lit "look something up") =
      ⟨[(lit "user", lit "look something up"),
        (lit "assistant", lit "```json\n\x7b\"action\": \"lookup\"\x7d\n```")], 1, 0⟩ := by
  have h := c10_non_search_action.1
    (fun _ => lit "```json\n\x7b\"action\": \"lookup\"\x7d\n```")
    (fun _ _ _ _ => ⟨lit "", 0, [], none⟩) [] (lit "look something up")
    (Json.obj [(lit "action", Json.str (lit "lookup"))]) rfl (by
      intro hc
      rw [show actionField (Json.obj [(lit "action", Json.str (lit "lookup"))]) =
        some (Json.str (lit "lookup")) from rfl] at hc
      injection hc with h1
      injection h1 with h2
      exact absurd h2 (by decide))
  simpa using h

/-! The Tool Schema Adapter.  Its implementation (scholar/tools.py) is not
under src/ — only its exports and callers are — so the component is
modelled from the spec (sections 4.4 and 6) and claim C6 is settled against
that model. -/

/-- Modelled from the spec: the four canonical operations of the Tool
Schema Adapter (scholar/tools.py is absent from src/). -/
inductive CanonOp where
  | searchScholarOp
  | searchAuthorOp
  | authorProfileOp
  | paperCitationsOp
deriving DecidableEq

/-- Modelled from the spec: the logical tool names exported for the four
operations. -/
def CanonOp.opName : CanonOp → Str
  | .searchScholarOp => lit "search_scholar"
  | .searchAuthorOp => lit "search_author"
  | .authorProfileOp => lit "get_author_profile"
  | .paperCitationsOp => lit "get_paper_citations"

/-- Parameter types of the canonical tool descriptions. -/
inductive PTy where
  | pstr
  | pint
deriving DecidableEq

/-- One canonical parameter: name, type, required flag. -/
structure ParamSpec where
  pname : Str
  ty : PTy
  required : Bool

/-- Modelled from the spec: canonical parameter lists (section 4.4) —
query: required string; num_results/year_from/year_to: optional integers;
author_id/author_name/citation_id: required strings where applicable. -/
def opParams : CanonOp → List ParamSpec
  | .searchScholarOp =>
    [⟨lit "query", .pstr, true⟩, ⟨lit "num_results", .pint, false⟩,
     ⟨lit "year_from", .pint, false⟩, ⟨lit "year_to", .pint, false⟩]
  | .searchAuthorOp => [⟨lit "author_name", .pstr, true⟩]
  | .authorProfileOp => [⟨lit "author_id", .pstr, true⟩]
  | .paperCitationsOp =>
    [⟨lit "citation_id", .pstr, true⟩, ⟨lit "num_results", .pint, false⟩]

/-- The two supported provider dialects. -/
inductive Dialect where
  | openai
  | anthropic
deriving DecidableEq

/-- Arguments of an invocation: JSON values keyed by parameter name. -/
abbrev Args := List (Str × Json)

/-- A flat JSON-schema-like parameter block: typed properties plus the
required-name list. -/
structure SchemaObj where
  properties : List (Str × PTy)
  required : List Str

/-- Modelled from the spec: a provider tool description — OpenAI wraps a
named function object with a flat parameter schema, Anthropic exposes the
name with an input_schema block. -/
inductive ProviderTool where
  | openaiTool (fname : Str) (parameters : SchemaObj)
  | anthropicTool (tname : Str) (input_schema : SchemaObj)

/-- The tool name carried by a provider description. -/
def ProviderTool.toolName : ProviderTool → Str
  | .openaiTool f _ => f
  | .anthropicTool t _ => t

/-- The parameter schema carried by a provider description. -/
def ProviderTool.schema : ProviderTool → SchemaObj
  | .openaiTool _ s => s
  | .anthropicTool _ s => s

/-- The dialect schema built from a canonical parameter list. -/
def toSchemaObj (ps : List ParamSpec) : SchemaObj :=
  { properties := ps.map (fun p => (p.pname, p.ty))
    required := (ps.filter (fun p => p.required)).map (fun p => p.pname) }

/-- Modelled from the spec: `describeToolsFor` restricted to one
operation. -/
def describeToolFor (d : Dialect) (op : CanonOp) : ProviderTool :=
  match d with
  | .openai => .openaiTool op.opName (toSchemaObj (opParams op))
  | .anthropic => .anthropicTool op.opName (toSchemaObj (opParams op))

/-- Modelled from the spec: `describeToolsFor(providerDialect)` — the four
canonical operations in that dialect's schema shape. -/
def describeToolsFor (d : Dialect) : List ProviderTool :=
  [describeToolFor d .searchScholarOp, describeToolFor d .searchAuthorOp,
   describeToolFor d .authorProfileOp, describeToolFor d .paperCitationsOp]

/-- Modelled from the spec: a raw tool invocation — OpenAI carries tool
identity as a name string with arguments and a call id; Anthropic as a
role-tagged tool_use content block with id, name and input. -/
inductive RawInvocation where
  | openaiCall (callId : Str) (fname : Str) (arguments : Args)
  | anthropicToolUse (useId : Str) (tname : Str) (input : Args)

/-- A conforming invocation constructed against a dialect's tool
description. -/
def mkInvocation (d : Dialect) (invId toolName : Str) (args : Args) : RawInvocation :=
  match d with
  | .openai => .openaiCall invId toolName args
  | .anthropic => .anthropicToolUse invId toolName args

/-- Argument value typing against a parameter type. -/
def tyMatches : PTy → Json → Bool
  | .pstr, .str _ => true
  | .pint, .num _ => true
  | _, _ => false

/-- Lookup in a dialect schema's property list. -/
def lookupP : List (Str × PTy) → Str → Option PTy
  | [], _ => none
  | (k', t) :: rest, k => if k' = k then some t else lookupP rest k

/-- Conformance of arguments to a dialect schema: every required name is
supplied, and every supplied argument is a schema property of matching
type. -/
def conformsTo (sch : SchemaObj) (args : Args) : Bool :=
  sch.required.all (fun r => (lookupKey args r).isSome) &&
  args.all (fun kv =>
    match lookupP sch.properties kv.1 with
    | some ty => tyMatches ty kv.2
    | none => false)

/-- Modelled from the spec: the adapter's parse failures. -/
inductive AdapterErr where
  | UnrecognizedOperation
  | MalformedArguments
deriving DecidableEq

/-- Name resolution over the four logical operations. -/
def opOfName (n : Str) : Option CanonOp :=
  if n = lit "search_scholar" then some .searchScholarOp
  else if n = lit "search_author" then some .searchAuthorOp
  else if n = lit "get_author_profile" then some .authorProfileOp
  else if n = lit "get_paper_citations" then some .paperCitationsOp
  else none

/-- Canonical argument validation: every required parameter is present with
the declared type and every supplied argument matches a declared
parameter. -/
def validArgs (ps : List ParamSpec) (args : Args) : Bool :=
  (ps.filter (fun p => p.required)).all (fun p =>
    match lookupKey args p.pname with
    | some v => tyMatches p.ty v
    | none => false) &&
  args.all (fun kv =>
    (ps.find? (fun p => p.pname == kv.1)).any (fun p => tyMatches p.ty kv.2))

/-- Modelled from the spec: `parseInvocation(providerDialect, raw)` →
canonical `(operation, arguments)`, failing with `UnrecognizedOperation`
for an unknown name and `MalformedArguments` for missing or ill-typed
arguments. -/
def parseInvocation (_d : Dialect) (inv : RawInvocation) :
    Except AdapterErr (CanonOp × Args) :=
  let nm := match inv with
    | .openaiCall _ f _ => f
    | .anthropicToolUse _ t _ => t
  let args := match inv with
    | .openaiCall _ _ a => a
    | .anthropicToolUse _ _ a => a
  match opOfName nm with
  | none => .error .UnrecognizedOperation
  | some op =>
    if validArgs (opParams op) args then .ok (op, args)
    else .error .MalformedArguments

theorem lookupKey_mem (l : Args) (k : Str) (v : Json)
    (h : lookupKey l k = some v) : (k, v) ∈ l := by
  induction l with
  | nil => cases h
  | cons kv rest ih =>
    obtain ⟨k', v'⟩ := kv
    by_cases he : k' = k
    · subst he
      rw [show lookupKey ((k', v') :: rest) k' = if k' = k' then some v' else lookupKey rest k'
        from rfl, if_pos rfl] at h
      injection h with h'
      subst h'
      exact List.mem_cons_self _ _
    · rw [show lookupKey ((k', v') :: rest) k = if k' = k then some v' else lookupKey rest k
        from rfl, if_neg he] at h
      exact List.mem_cons_of_mem _ (ih h)

theorem lookupP_map (ps : List ParamSpec) (k : Str) :
    lookupP (ps.map (fun p => (p.pname, p.ty))) k =
      (ps.find? (fun p => p.pname == k)).map (fun p => p.ty) := by
  induction ps with
  | nil => rfl
  | cons p rest ih =>
    by_cases he : p.pname = k
    · rw [List.map_cons,
        show lookupP ((p.pname, p.ty) :: rest.map (fun p => (p.pname, p.ty))) k =
          if p.pname = k then some p.ty else lookupP (rest.map (fun p => (p.pname, p.ty))) k
          from rfl,
        if_pos he, List.find?_cons_of_pos _ (by simp [he])]
      rfl
    · rw [List.map_cons,
        show lookupP ((p.pname, p.ty) :: rest.map (fun p => (p.pname, p.ty))) k =
          if p.pname = k then some p.ty else lookupP (rest.map (fun p => (p.pname, p.ty))) k
          from rfl,
        if_neg he, List.find?_cons_of_neg _ (by simp [he]), ih]

theorem find?_name_nodup (ps : List ParamSpec) (p : ParamSpec)
    (hnd : (ps.map (fun q => q.pname)).Nodup) (hm : p ∈ ps) :
    ps.find? (fun q => q.pname == p.pname) = some p := by
  induction ps with
  | nil => cases hm
  | cons q rest ih =>
    rw [List.map_cons, List.nodup_cons] at hnd
    rcases List.mem_cons.mp hm with rfl | hm'
    · exact List.find?_cons_of_pos _ (by simp)
    · have hq : q.pname ≠ p.pname := by
        intro he
        exact hnd.1 (he ▸ List.mem_map_of_mem _ hm')
      rw [List.find?_cons_of_neg _ (by simp [hq])]
      exact ih hnd.2 hm'

/-- Conformance to the dialect schema implies canonical validity when the
canonical parameter names are distinct (they are, for all four
operations). -/
theorem validArgs_of_conforms (ps : List ParamSpec) (args : Args)
    (hnd : (ps.map (fun q => q.pname)).Nodup)
    (h : conformsTo (toSchemaObj ps) args = true) :
    validArgs ps args = true := by
  unfold conformsTo toSchemaObj at h
  obtain ⟨hA, hB⟩ := Bool.and_eq_true_iff.mp h
  unfold validArgs
  apply Bool.and_eq_true_iff.mpr
  constructor
  · rw [List.all_eq_true]
    intro p hp
    have hpm : p ∈ ps := List.mem_of_mem_filter hp
    have hreqname : p.pname ∈ (ps.filter (fun p => p.required)).map (fun p => p.pname) :=
      List.mem_map_of_mem _ hp
    have hsome := List.all_eq_true.mp hA _ hreqname
    obtain ⟨v, hv⟩ := Option.isSome_iff_exists.mp hsome
    have hmem := lookupKey_mem args p.pname v hv
    have hkv := List.all_eq_true.mp hB _ hmem
    rw [lookupP_map, find?_name_nodup ps p hnd hpm] at hkv
    rw [hv]
    simpa using hkv
  · rw [List.all_eq_true]
    intro kv hm
    have hkv := List.all_eq_true.mp hB _ hm
    rw [lookupP_map] at hkv
    cases hf : ps.find? (fun p => p.pname == kv.1) with
    | none => rw [hf] at hkv; simp at hkv
    | some p => rw [hf] at hkv; simpa using hkv

/-- Claim C6 -/
theorem c6_adapter_roundtrip :
    ∀ (d : Dialect) (op : CanonOp) (invId : Str) (args : Args),
      conformsTo (describeToolFor d op).schema args = true →
      describeToolFor d op ∈ describeToolsFor d ∧
      parseInvocation d
        (mkInvocation d invId (describeToolFor d op).toolName args) = .ok (op, args) := by
  intro d op invId args hconf
  constructor
  · cases op <;> simp [describeToolsFor]
  · have hnd : ((opParams op).map (fun q => q.pname)).Nodup := by
      cases op <;> decide
    have hschema : (describeToolFor d op).schema = toSchemaObj (opParams op) := by
      cases d <;> rfl
    have hvalid : validArgs (opParams op) args = true :=
      validArgs_of_conforms (opParams op) args hnd (by rw [← hschema]; exact hconf)
    have hname : opOfName (describeToolFor d op).toolName = some op := by
      cases d <;> cases op <;> rfl
    cases d with
    | openai =>
      show (match opOfName (describeToolFor Dialect.openai op).toolName with
        | none => Except.error AdapterErr.UnrecognizedOperation
        | some op' =>
          if validArgs (opParams op') args = true then Except.ok (op', args)
          else Except.error AdapterErr.MalformedArguments) = Except.ok (op, args)
      rw [hname]
      show (if validArgs (opParams op) args = true then Except.ok (op, args)
        else Except.error AdapterErr.MalformedArguments) = Except.ok (op, args)
      rw [if_pos hvalid]
    | anthropic =>
      show (match opOfName (describeToolFor Dialect.anthropic op).toolName with
        | none => Except.error AdapterErr.UnrecognizedOperation
        | some op' =>
          if validArgs (opParams op') args = true then Except.ok (op', args)
          else Except.error AdapterErr.MalformedArguments) = Except.ok (op, args)
      rw [hname]
      show (if validArgs (opParams op) args = true then Except.ok (op, args)
        else Except.error AdapterErr.MalformedArguments) = Except.ok (op, args)
      rw [if_pos hvalid]

/-- Witness for C6: a conforming search invocation in each dialect parses
back to the search operation with the same arguments. -/
theorem c6_adapter_roundtrip_witness :
    parseInvocation .openai
      (mkInvocation .openai (lit "call_1")
        (describeToolFor .openai .searchScholarOp).toolName
        [(lit "query", Json.str (lit "rag")), (lit "num_results", Json.num 5)]) =
      .ok (.searchScholarOp, [(lit "query", Json.str (lit "rag")), (lit "num_results", Json.num 5)]) ∧
    parseInvocation .anthropic
      (mkInvocation .anthropic (lit "toolu_1")
        (describeToolFor .anthropic .paperCitationsOp).toolName
        [(lit "citation_id", Json.str (lit "123"))]) =
      .ok (.paperCitationsOp, [(lit "citation_id", Json.str (lit "123"))]) :=
  ⟨(c6_adapter_roundtrip .openai .searchScholarOp (lit "call_1")
      [(lit "query", Json.str (lit "rag")), (lit "num_results", Json.num 5)] (by decide)).2,
   (c6_adapter_roundtrip .anthropic .paperCitationsOp (lit "toolu_1")
      [(lit "citation_id", Json.str (lit "123"))] (by decide)).2⟩

